import Mathlib

/-!
Verification of `src/hc_core_api_c_binding/include/hc_core_api_c_binding.h`.

The source artifact is a single C header: an include guard, two `#include`
directives, a conditional `extern "C"` block for C++ consumers, a
`typedef void Holochain;`, and one function declaration
`extern Holochain *hc_new(Dna*);`.  We embed the header as a list of
source lines (preprocessor directives, linkage-block markers, and C
declarations), give an executable model of the relevant part of the C
preprocessor (conditional inclusion with `#ifdef`/`#ifndef`/`#endif`,
object-like `#define`), and an executable model of the relevant C
typing rules (typedef resolution, dereferenceability, implicit pointer
conversion) and of linkage assignment.
-/

/-- C types as they appear in this header: `void`, a reference to a named
type (a typedef name or a type defined in another translation unit, such
as `Dna`), and pointer types. -/
inductive CType where
  | void
  | named (n : String)
  | ptr (pointee : CType)
deriving DecidableEq

/-- C statements (only needed to state that the header contains none:
a function *definition* would carry a body made of these). -/
inductive CStmt where
  | exprStmt
  | returnStmt
deriving DecidableEq

/-- C top-level declarations.  The header only contains a typedef and a
function prototype; `funDef` (a function definition with a body) is part
of the model so that "the fragment contains declarations only, no
executable behavior" is a contentful statement. -/
inductive CDecl where
  | typedefDecl (name : String) (target : CType)
  | protoDecl (name : String) (ret : CType) (params : List CType)
  | funDef (name : String) (ret : CType) (params : List CType) (body : List CStmt)
deriving DecidableEq

/-- One line of the header source: a preprocessor directive, an
`extern "C" {` / `}` linkage-block marker, or a C declaration. -/
inductive SrcLine where
  | ppIfNotDefined (m : String)
  | ppIfDefined (m : String)
  | ppDefine (m : String)
  | ppEndif
  | ppInclude (path : String)
  | cLinkBegin
  | cLinkEnd
  | decl (d : CDecl)
deriving DecidableEq

/-- What the preprocessor emits to the compiler proper: resolved include
requests, linkage-block markers, and declarations. -/
inductive OutItem where
  | inc (path : String)
  | cLinkBegin
  | cLinkEnd
  | decl (d : CDecl)
deriving DecidableEq

/-- The preprocessor over one file: `env` is the set of defined macros
(as a list of names), `skip` is the nesting depth of conditional groups
whose controlling condition was false (`0` means the current group is
active).  Returns the emitted items and the macro environment after the
file. -/
def ppRun : List String → Nat → List SrcLine → List OutItem × List String
  | env, _, [] => ([], env)
  | env, skip, line :: rest =>
    match line with
    | .ppIfNotDefined m =>
        if skip = 0 then
          if env.contains m then ppRun env 1 rest else ppRun env 0 rest
        else ppRun env (skip + 1) rest
    | .ppIfDefined m =>
        if skip = 0 then
          if env.contains m then ppRun env 0 rest else ppRun env 1 rest
        else ppRun env (skip + 1) rest
    | .ppEndif =>
        if skip = 0 then ppRun env 0 rest else ppRun env (skip - 1) rest
    | .ppDefine m =>
        if skip = 0 then ppRun (m :: env) 0 rest else ppRun env skip rest
    | .ppInclude p =>
        if skip = 0 then
          let r := ppRun env 0 rest
          (.inc p :: r.1, r.2)
        else ppRun env skip rest
    | .cLinkBegin =>
        if skip = 0 then
          let r := ppRun env 0 rest
          (.cLinkBegin :: r.1, r.2)
        else ppRun env skip rest
    | .cLinkEnd =>
        if skip = 0 then
          let r := ppRun env 0 rest
          (.cLinkEnd :: r.1, r.2)
        else ppRun env skip rest
    | .decl d =>
        if skip = 0 then
          let r := ppRun env 0 rest
          (.decl d :: r.1, r.2)
        else ppRun env skip rest

/-- The header `hc_core_api_c_binding.h`, line by line. -/
def hc_core_api_c_binding_h : List SrcLine :=
  [ .ppIfNotDefined "HOLOCHAIN_RUST_HC_CORE_C_BINDING_H",
    .ppDefine "HOLOCHAIN_RUST_HC_CORE_C_BINDING_H",
    .ppInclude "<stdint.h>",
    .ppInclude "../../hc_dna_c_binding/include/hc_dna_c_binding.h",
    .ppIfDefined "__cplusplus",
    .cLinkBegin,
    .ppEndif,
    .decl (.typedefDecl "Holochain" .void),
    .decl (.protoDecl "hc_new" (.ptr (.named "Holochain")) [.ptr (.named "Dna")]),
    .ppIfDefined "__cplusplus",
    .cLinkEnd,
    .ppEndif,
    .ppEndif ]

/-- Initial macro environment of the translation unit: a C++ compiler
predefines `__cplusplus`, a C compiler does not. -/
def initialEnv (cxx : Bool) : List String :=
  if cxx then ["__cplusplus"] else []

/-- Expansion of the header in a C translation unit. -/
def expandC : List OutItem :=
  (ppRun (initialEnv false) 0 hc_core_api_c_binding_h).1

/-- Expansion of the header in a C++ translation unit. -/
def expandCpp : List OutItem :=
  (ppRun (initialEnv true) 0 hc_core_api_c_binding_h).1

/-- The effect of including the header `n` times in one translation
unit, threading the macro environment through. -/
def includeNTimes (env : List String) : Nat → List OutItem × List String
  | 0 => ([], env)
  | n + 1 =>
      let r := ppRun env 0 hc_core_api_c_binding_h
      let s := includeNTimes r.2 n
      (r.1 ++ s.1, s.2)

/-- The C declarations among the emitted items. -/
def outDecls (out : List OutItem) : List CDecl :=
  out.filterMap fun i =>
    match i with
    | .decl d => some d
    | _ => none

/-- The typedef environment established by the emitted declarations. -/
def typedefTargets (out : List OutItem) : List (String × CType) :=
  (outDecls out).filterMap fun d =>
    match d with
    | .typedefDecl n t => some (n, t)
    | _ => none

/-- The function prototypes among the emitted declarations, as
(name, return type, parameter types). -/
def funProtos (out : List OutItem) : List (String × CType × List CType) :=
  (outDecls out).filterMap fun d =>
    match d with
    | .protoDecl n r ps => some (n, r, ps)
    | _ => none

/-- Names of types this translation unit itself defines (typedef names). -/
def declaredTypeNames (out : List OutItem) : List String :=
  (typedefTargets out).map Prod.fst

/-- Resolve typedef names through the typedef environment (one level,
which is exact here: the header's only typedef maps straight to the
ground type `void`). -/
def resolveType (env : List (String × CType)) : CType → CType
  | .named n =>
      match env.lookup n with
      | some t => t
      | none => .named n
  | .ptr t => .ptr (resolveType env t)
  | .void => .void

/-- Whether a (resolved) type is a complete object type in this
translation unit.  `void` is incomplete by definition of C; a name the
unit does not define is incomplete here. -/
def isCompleteObjectType : CType → Bool
  | .void => false
  | .named _ => false
  | .ptr _ => true

/-- C constraint on the unary `*` operator: the operand must be a
pointer, and (for an lvalue usable as such) its pointee must be a
complete object type; `*p` on a `void *` is a constraint violation,
i.e. a compile-time error. -/
def canDeref (env : List (String × CType)) (t : CType) : Bool :=
  match resolveType env t with
  | .ptr p => isCompleteObjectType p
  | _ => false

/-- C implicit conversion between pointer types: identical pointer
types convert, and a pointer to `void` converts implicitly to and from
any object pointer type. -/
def ptrImplicitConv (env : List (String × CType)) (src tgt : CType) : Bool :=
  match resolveType env src, resolveType env tgt with
  | .ptr a, .ptr b => a == b || a == CType.void || b == CType.void
  | _, _ => false

/-- Linkage of a declaration. -/
inductive Linkage where
  | c
  | cpp
deriving DecidableEq

/-- Assign language linkage to each emitted declaration: in a C++
translation unit a declaration at linkage-block depth `0` gets C++
linkage and any declaration inside an `extern "C"` block gets C
linkage; in a C translation unit every declaration has C linkage. -/
def declLinkages (cxx : Bool) : Nat → List OutItem → List (CDecl × Linkage)
  | _, [] => []
  | depth, .cLinkBegin :: rest => declLinkages cxx (depth + 1) rest
  | depth, .cLinkEnd :: rest => declLinkages cxx (depth - 1) rest
  | depth, .inc _ :: rest => declLinkages cxx depth rest
  | depth, .decl d :: rest =>
      (d, if cxx && depth = 0 then Linkage.cpp else Linkage.c) ::
        declLinkages cxx depth rest

/-- The object-file symbol a declaration's name maps to: C linkage
keeps the name as-is, C++ linkage mangles it (modelled by an
Itanium-style tag prefix). -/
def linkSymbol (name : String) (lk : Linkage) : String :=
  match lk with
  | .c => name
  | .cpp => "_Z" ++ toString name.length ++ name

/-- Whether a declaration is a function definition (carries a body). -/
def isFunDef : CDecl → Bool
  | .funDef _ _ _ _ => true
  | _ => false

/-- Number of executable statements a declaration contributes. -/
def declStmtCount : CDecl → Nat
  | .funDef _ _ _ body => body.length
  | _ => 0

/-- Modelled from the spec: the implementation of `hc_new` (the Rust
runtime behind the C binding) is not part of this fragment — only the
declaration is.  Following the spec, the `Dna` descriptor is abstract
here, with only its well-formedness observable at this boundary. -/
structure Dna where
  wellFormed : Bool
deriving DecidableEq

/-- Modelled from the spec: the runtime instance constructed from a
`Dna` descriptor; its structure is invisible to callers. -/
structure HolochainRuntime where
  fromDna : Dna
deriving DecidableEq

/-- Modelled from the spec: the behavior of `hc_new`, which is absent
from the fragment.  The spec's convention: a nullable pointer is an
`Option`; a well-formed, non-null `Dna` pointer yields a (non-null)
handle to a newly constructed runtime, and the sentinel "no value"
return (`none`, i.e. null) is reserved for failure — in particular the
null-on-failure convention is adopted uniformly for a null `Dna`
argument. -/
def hc_new (dna : Option Dna) : Option HolochainRuntime :=
  match dna with
  | none => none
  | some d => if d.wellFormed then some ⟨d⟩ else none

/-- Helper for the include-guard claim: once the guard macro is
defined, running the preprocessor over the header emits nothing and
leaves the macro environment unchanged. -/
theorem ppRun_header_guarded (env : List String)
    (h : env.contains "HOLOCHAIN_RUST_HC_CORE_C_BINDING_H" = true) :
    ppRun env 0 hc_core_api_c_binding_h = ([], env) := by
  have h' : "HOLOCHAIN_RUST_HC_CORE_C_BINDING_H" ∈ env := by
    simpa using h
  simp [hc_core_api_c_binding_h, ppRun, h']

/-- Helper: any number of re-inclusions after the guard macro is
defined contributes nothing. -/
theorem includeNTimes_guarded (env : List String)
    (h : env.contains "HOLOCHAIN_RUST_HC_CORE_C_BINDING_H" = true) :
    ∀ n : Nat, includeNTimes env n = ([], env) := by
  intro n
  induction n with
  | zero => rfl
  | succ n ih =>
      simp [includeNTimes, ppRun_header_guarded env h, ih]

/-- Claim C1: the header declares exactly one function prototype, named
`hc_new`, whose single parameter is a pointer to `Dna` and whose return
type is a pointer to `Holochain`; that return type resolves to a
pointer to `void`, i.e. a pointer whose pointee is not a complete
object type — an opaque runtime handle. -/
theorem hc_new_signature :
    funProtos expandC =
      [("hc_new", CType.ptr (.named "Holochain"), [CType.ptr (.named "Dna")])] ∧
    resolveType (typedefTargets expandC) (CType.ptr (.named "Holochain")) =
      CType.ptr .void ∧
    isCompleteObjectType
      (resolveType (typedefTargets expandC) (CType.named "Holochain")) = false := by
  decide

/-- Claim C2: `Holochain` is declared as a typedef for `void`, the
header exposes no other declaration of it (so no field is visible), and
dereferencing a value of type `Holochain *` fails the C constraint on
unary `*` — in both C and C++ expansions of the header. -/
theorem holochain_typedef_void_no_deref :
    (typedefTargets expandC).lookup "Holochain" = some CType.void ∧
    (typedefTargets expandCpp).lookup "Holochain" = some CType.void ∧
    (outDecls expandC).filter
        (fun d => match d with
          | .typedefDecl n _ => n == "Holochain"
          | _ => false) =
      [CDecl.typedefDecl "Holochain" .void] ∧
    canDeref (typedefTargets expandC) (CType.ptr (.named "Holochain")) = false ∧
    canDeref (typedefTargets expandCpp) (CType.ptr (.named "Holochain")) = false := by
  decide

/-- Claim C3: the fragment's whole declaration list, under both C and
C++ expansion, is exactly one typedef (`Holochain`) and one function
prototype (`hc_new`); in particular no second function — destructor,
teardown or release — is declared anywhere in it. -/
theorem hc_new_only_entry_point :
    outDecls expandC =
      [CDecl.typedefDecl "Holochain" .void,
       CDecl.protoDecl "hc_new" (.ptr (.named "Holochain")) [.ptr (.named "Dna")]] ∧
    outDecls expandCpp =
      [CDecl.typedefDecl "Holochain" .void,
       CDecl.protoDecl "hc_new" (.ptr (.named "Holochain")) [.ptr (.named "Dna")]] ∧
    (funProtos expandC).map (fun p => p.1) = ["hc_new"] ∧
    (funProtos expandCpp).map (fun p => p.1) = ["hc_new"] := by
  decide

/-- Claim C4 (spec-modelled behavior): for every well-formed, non-null
`Dna` pointer, `hc_new` returns a non-null opaque handle; the sentinel
"no value" return is reserved for failure. -/
theorem hc_new_wellformed_nonnull (d : Dna) (h : d.wellFormed = true) :
    (hc_new (some d)).isSome = true := by
  simp [hc_new, h]

/-- Witness for `hc_new_wellformed_nonnull` at a concrete well-formed
descriptor. -/
theorem hc_new_wellformed_nonnull_witness :
    (hc_new (some ⟨true⟩)).isSome = true :=
  hc_new_wellformed_nonnull ⟨true⟩ (by decide)

/-- Claim C5 (spec-modelled behavior): a null `Dna` argument makes
`hc_new` return the null handle, and since `hc_new` is a function of
its argument, this null-on-null convention holds for every null-input
call. -/
theorem hc_new_null_input_null :
    hc_new none = none ∧ ∀ r : Option HolochainRuntime,
      hc_new none = r → r = none := by
  exact ⟨rfl, fun r h => h.symm⟩

/-- Claim C6: in a C++ translation unit the header's declarations all
fall inside the `extern "C"` block and hence get C linkage; the symbol
for `hc_new` is its unmangled name, identical to the symbol a C
translation unit uses, so it is callable across the C/C++ boundary
without name-mangling issues. -/
theorem hc_new_c_linkage :
    declLinkages true 0 expandCpp =
      [(CDecl.typedefDecl "Holochain" .void, Linkage.c),
       (CDecl.protoDecl "hc_new" (.ptr (.named "Holochain")) [.ptr (.named "Dna")],
         Linkage.c)] ∧
    declLinkages false 0 expandC =
      [(CDecl.typedefDecl "Holochain" .void, Linkage.c),
       (CDecl.protoDecl "hc_new" (.ptr (.named "Holochain")) [.ptr (.named "Dna")],
         Linkage.c)] ∧
    linkSymbol "hc_new" Linkage.c = "hc_new" ∧
    linkSymbol "hc_new" Linkage.cpp ≠ "hc_new" := by
  decide

/-- Claim C7: the header includes the sibling DNA-binding header at the
fixed relative path `../../hc_dna_c_binding/include/hc_dna_c_binding.h`;
the type name `Dna` is consumed by `hc_new`'s parameter yet defined by
no declaration of this fragment, so the fragment is usable only with
that external header resolvable. -/
theorem dna_defined_externally :
    hc_core_api_c_binding_h.contains
      (SrcLine.ppInclude "../../hc_dna_c_binding/include/hc_dna_c_binding.h") = true ∧
    expandC.contains
      (OutItem.inc "../../hc_dna_c_binding/include/hc_dna_c_binding.h") = true ∧
    (funProtos expandC).map (fun p => p.2.2) = [[CType.ptr (.named "Dna")]] ∧
    declaredTypeNames expandC = ["Holochain"] ∧
    (typedefTargets expandC).lookup "Dna" = none := by
  decide

/-- Claim C8: the fragment contains declarations only: no emitted
declaration (under either expansion) is a function definition, and the
total number of executable statements in the fragment is zero —
`hc_new` in particular has no body. -/
theorem header_declarations_only :
    (outDecls expandC).all (fun d => !(isFunDef d)) = true ∧
    (outDecls expandCpp).all (fun d => !(isFunDef d)) = true ∧
    ((outDecls expandC).map declStmtCount).sum = 0 ∧
    ((outDecls expandCpp).map declStmtCount).sum = 0 := by
  decide

/-- Claim C9: including the header `n ≥ 1` times in one translation
unit (C or C++) produces exactly the output of a single inclusion: the
guard macro `HOLOCHAIN_RUST_HC_CORE_C_BINDING_H` makes every inclusion
after the first expand to nothing, and the `Holochain` typedef and the
`hc_new` prototype are each emitted exactly once. -/
theorem header_include_idempotent (cxx : Bool) (n : Nat) (h : 1 ≤ n) :
    (includeNTimes (initialEnv cxx) n).1 =
      (includeNTimes (initialEnv cxx) 1).1 ∧
    (includeNTimes (initialEnv cxx) n).1.count
      (OutItem.decl (.typedefDecl "Holochain" .void)) = 1 ∧
    (includeNTimes (initialEnv cxx) n).1.count
      (OutItem.decl
        (.protoDecl "hc_new" (.ptr (.named "Holochain")) [.ptr (.named "Dna")])) = 1 := by
  obtain ⟨m, rfl⟩ : ∃ m, n = m + 1 :=
    ⟨n - 1, (Nat.succ_pred_eq_of_pos h).symm⟩
  cases cxx
  · have e2 : (ppRun (initialEnv false) 0 hc_core_api_c_binding_h).2 =
        ["HOLOCHAIN_RUST_HC_CORE_C_BINDING_H"] := by decide
    simp only [includeNTimes, e2,
      includeNTimes_guarded ["HOLOCHAIN_RUST_HC_CORE_C_BINDING_H"] (by decide) m]
    decide
  · have e2 : (ppRun (initialEnv true) 0 hc_core_api_c_binding_h).2 =
        ["HOLOCHAIN_RUST_HC_CORE_C_BINDING_H", "__cplusplus"] := by decide
    simp only [includeNTimes, e2,
      includeNTimes_guarded
        ["HOLOCHAIN_RUST_HC_CORE_C_BINDING_H", "__cplusplus"] (by decide) m]
    decide

/-- Witness for `header_include_idempotent`: three C inclusions emit
the declarations exactly once. -/
theorem header_include_idempotent_witness :
    (includeNTimes (initialEnv false) 3).1 =
      (includeNTimes (initialEnv false) 1).1 ∧
    (includeNTimes (initialEnv false) 3).1.count
      (OutItem.decl (.typedefDecl "Holochain" .void)) = 1 ∧
    (includeNTimes (initialEnv false) 3).1.count
      (OutItem.decl
        (.protoDecl "hc_new" (.ptr (.named "Holochain")) [.ptr (.named "Dna")])) = 1 :=
  header_include_idempotent false 3 (by decide)

/-- Claim C10: dereferencing a `Holochain *` is a compile-time error
(its pointee resolves to the incomplete type `void`), but the
opaqueness is not nominal: `Holochain *` resolves to exactly `void *`,
so every object pointer type converts implicitly both to and from it,
and the type system cannot tell a runtime handle apart from any other
pointer. -/
theorem holochain_ptr_is_void_ptr :
    canDeref (typedefTargets expandC) (CType.ptr (.named "Holochain")) = false ∧
    resolveType (typedefTargets expandC) (CType.ptr (.named "Holochain")) =
      resolveType (typedefTargets expandC) (CType.ptr .void) ∧
    ∀ t : CType,
      ptrImplicitConv (typedefTargets expandC)
        (CType.ptr t) (CType.ptr (.named "Holochain")) = true ∧
      ptrImplicitConv (typedefTargets expandC)
        (CType.ptr (.named "Holochain")) (CType.ptr t) = true := by
  refine ⟨by decide, by decide, fun t => ⟨?_, ?_⟩⟩ <;>
    simp [ptrImplicitConv, resolveType, typedefTargets, outDecls, expandC,
      initialEnv, hc_core_api_c_binding_h, ppRun]
